import Mathlib

/-!
Shallow embedding of the notification client of this repository: the
unread-count state machine of the realtime channel and the mark-read
operations of the NotificationManager class, together with the push,
click and fetch handlers of the background service worker.

JavaScript numbers that the source keeps integral are modelled as Int;
the truthiness of the JavaScript expression x OR d is modelled
explicitly, with undefined, zero and the empty string falsy.
-/

namespace NotificationClient

/-- JavaScript fallback on an optional integer, as in the source
expression for the verified handler: undefined and 0 are falsy. -/
def jsOrInt (x : Option Int) (d : Int) : Int :=
  match x with
  | none => d
  | some n => if n = 0 then d else n

/-- JavaScript fallback on an optional string: undefined and the empty
string are falsy. -/
def jsOrStr (x : Option String) (d : String) : String :=
  match x with
  | none => d
  | some s => if s = ("") then d else s

/-- Handler for the socket event connection:verified: the source sets
unreadCount to the payload field unreadCount with fallback 0. -/
def onConnectionVerified (payload : Option Int) (_u : Int) : Int :=
  jsOrInt payload 0

/-- Handler for the socket event notification:new: the source increments
unreadCount by one. -/
def onNotificationNew (u : Int) : Int :=
  u + 1

/-- Handler for the socket event notification:all-read: the source zeroes
unreadCount unconditionally. -/
def onAllRead (_u : Int) : Int :=
  0

/-- Handler for the socket event notification:badge-update: the source
assigns the payload count to unreadCount, with no clamping. -/
def onBadgeUpdate (count : Int) (_u : Int) : Int :=
  count

/-- Observable side effects of the mark-read operations, listed in the
order the source issues them. -/
inductive MarkEffect where
  | socketEmit
  | httpRequest
  | countUpdated (newCount : Int)
deriving DecidableEq, Repr

/-- The markAsRead method: it emits over the socket when a socket object
exists, then always issues the HTTP write, and only after the HTTP
promise resolves does it decrement the count, guarded by the count being
positive; a rejected fetch lands in the catch block, which skips the
decrement. Returns the new count and the trace of effects. -/
def markAsRead (socketPresent fetchThrows : Bool) (u : Int) :
    Int × List MarkEffect :=
  let pre := (if socketPresent then [MarkEffect.socketEmit] else []) ++
    [MarkEffect.httpRequest]
  if fetchThrows then (u, pre)
  else if u > 0 then (u - 1, pre ++ [MarkEffect.countUpdated (u - 1)])
  else (u, pre)

/-- The markAllAsRead method: socket emit when a socket object exists,
then the HTTP write, then the count is set to zero; a rejected fetch
lands in the catch block, which skips the zeroing. -/
def markAllAsRead (socketPresent fetchThrows : Bool) (u : Int) :
    Int × List MarkEffect :=
  let pre := (if socketPresent then [MarkEffect.socketEmit] else []) ++
    [MarkEffect.httpRequest]
  if fetchThrows then (u, pre)
  else (0, pre ++ [MarkEffect.countUpdated 0])

/-- One step acting on the unreadCount of the session: an inbound socket
event or a local mark-read call together with its fetch outcome. -/
inductive CounterOp where
  | verified (payload : Option Int)
  | newNotification
  | allRead
  | badgeUpdate (count : Int)
  | markRead (socketPresent fetchThrows : Bool)
  | markAll (socketPresent fetchThrows : Bool)
deriving DecidableEq, Repr

/-- Apply one counter step to the current unreadCount. -/
def applyOp (u : Int) : CounterOp → Int
  | CounterOp.verified p => onConnectionVerified p u
  | CounterOp.newNotification => onNotificationNew u
  | CounterOp.allRead => onAllRead u
  | CounterOp.badgeUpdate c => onBadgeUpdate c u
  | CounterOp.markRead sp ft => (markAsRead sp ft u).1
  | CounterOp.markAll sp ft => (markAllAsRead sp ft u).1

/-- Run a sequence of counter steps from a starting count. -/
def runOps (ops : List CounterOp) (u : Int) : Int :=
  ops.foldl applyOp u

/-- An inbound absolute correction carries a non-negative server count;
pure increments and local calls carry no count. -/
def opNonneg : CounterOp → Bool
  | CounterOp.verified none => true
  | CounterOp.verified (some n) => decide (0 ≤ n)
  | CounterOp.badgeUpdate c => decide (0 ≤ c)
  | _ => true

theorem applyOp_nonneg (u : Int) (op : CounterOp)
    (hu : 0 ≤ u) (hop : opNonneg op = true) : 0 ≤ applyOp u op := by
  cases op with
  | verified p =>
    cases p with
    | none => simp [applyOp, onConnectionVerified, jsOrInt]
    | some n =>
      have hn : 0 ≤ n := by simpa [opNonneg] using hop
      simp only [applyOp, onConnectionVerified, jsOrInt]
      split <;> omega
  | newNotification =>
    simp only [applyOp, onNotificationNew]
    omega
  | allRead => simp [applyOp, onAllRead]
  | badgeUpdate c =>
    have hc : 0 ≤ c := by simpa [opNonneg] using hop
    simpa [applyOp, onBadgeUpdate] using hc
  | markRead sp ft =>
    cases ft with
    | true => simpa [applyOp, markAsRead] using hu
    | false =>
      by_cases h : u > 0 <;> simp [applyOp, markAsRead, h] <;> omega
  | markAll sp ft =>
    cases ft with
    | true => simpa [applyOp, markAllAsRead] using hu
    | false => simp [applyOp, markAllAsRead]

theorem runOps_nonneg (ops : List CounterOp) (u : Int)
    (hu : 0 ≤ u) (h : ∀ op ∈ ops, opNonneg op = true) : 0 ≤ runOps ops u := by
  induction ops generalizing u with
  | nil => simpa [runOps] using hu
  | cons op rest ih =>
    have hstep : 0 ≤ applyOp u op :=
      applyOp_nonneg u op hu (h op (List.mem_cons_self op rest))
    have htail : ∀ o ∈ rest, opNonneg o = true :=
      fun o ho => h o (List.mem_cons_of_mem op ho)
    simpa [runOps, List.foldl] using ih (applyOp u op) hstep htail

/-- Claim C1: for every sequence of inbound realtime events (increments,
absolute corrections carrying a non-negative server count, all-read
zeroings) interleaved with markAsRead and markAllAsRead calls, the
unreadCount of the session stays non-negative after every step, starting
from the initial count zero. -/
theorem unreadCount_nonneg_invariant (ops : List CounterOp)
    (h : ∀ op ∈ ops, opNonneg op = true) (n : Nat) :
    0 ≤ runOps (ops.take n) 0 :=
  runOps_nonneg (ops.take n) 0 le_rfl
    (fun op ho => h op (List.take_subset n ops ho))

theorem unreadCount_nonneg_invariant_witness :
    0 ≤ runOps (([CounterOp.newNotification, CounterOp.badgeUpdate 2,
      CounterOp.markRead true false, CounterOp.allRead,
      CounterOp.verified (some 3)]).take 3) 0 :=
  unreadCount_nonneg_invariant
    [CounterOp.newNotification, CounterOp.badgeUpdate 2,
      CounterOp.markRead true false, CounterOp.allRead,
      CounterOp.verified (some 3)] (by decide) 3

/-- Claim C2: when the verified event of the channel authentication
reports an unread count N, the local count becomes exactly N, for every
prior local count: the assignment overwrites, it does not add. -/
theorem connectionVerified_overwrites (prior N : Int) :
    onConnectionVerified (some N) prior = N := by
  by_cases h : N = 0 <;> simp [onConnectionVerified, jsOrInt, h]

/-- Counterexample to claim C3 as stated: at starting count 5 the
decrement is NOT applied when the HTTP write throws (the count stays 5),
while it is applied when the HTTP write resolves (the count becomes 4);
the decrement is therefore not independent of the network call. -/
theorem markAsRead_depends_on_fetch_cex :
    ((markAsRead true true 5).1 = 5) ∧ ((markAsRead true false 5).1 = 4) := by
  constructor <;> rfl

/-- Claim C3 as amended: markAsRead issues the realtime-channel emit
(when a socket exists) and the HTTP write for every starting count, and
applies the decrement-by-one clamped at zero only after the HTTP call
resolves; when the HTTP call throws, the count is left unchanged.
Non-negative counts stay non-negative. -/
theorem markAsRead_spec (socketPresent fetchThrows : Bool) (u : Int) :
    ((markAsRead socketPresent fetchThrows u).1 =
      if fetchThrows then u else if u > 0 then u - 1 else u) ∧
    (MarkEffect.httpRequest ∈ (markAsRead socketPresent fetchThrows u).2) ∧
    (socketPresent = true →
      MarkEffect.socketEmit ∈ (markAsRead socketPresent fetchThrows u).2) ∧
    (0 ≤ u → 0 ≤ (markAsRead socketPresent fetchThrows u).1) := by
  refine ⟨?_, ?_, ?_, ?_⟩
  · cases fetchThrows <;> by_cases h : u > 0 <;> simp [markAsRead, h]
  · cases fetchThrows <;> cases socketPresent <;>
      by_cases h : u > 0 <;> simp [markAsRead, h]
  · intro hs
    subst hs
    cases fetchThrows <;> by_cases h : u > 0 <;> simp [markAsRead, h]
  · intro hu
    cases fetchThrows <;> by_cases h : u > 0 <;> simp [markAsRead, h] <;> omega

theorem markAsRead_spec_witness :
    (MarkEffect.socketEmit ∈ (markAsRead true false 5).2) ∧
    (0 ≤ (markAsRead true false 5).1) :=
  ⟨(markAsRead_spec true false 5).2.2.1 rfl,
   (markAsRead_spec true false 5).2.2.2 (by decide)⟩

/-- Claim C6: markAllAsRead with a resolving HTTP write is idempotent:
for every starting count and socket presence, the first call yields
count 0, the second call yields count 0 again, and the second call
leaves the local count exactly where the first call left it. -/
theorem markAllAsRead_idempotent (sp1 sp2 : Bool) (u : Int) :
    ((markAllAsRead sp1 false u).1 = 0) ∧
    ((markAllAsRead sp2 false (markAllAsRead sp1 false u).1).1 = 0) ∧
    ((markAllAsRead sp2 false (markAllAsRead sp1 false u).1).1 =
      (markAllAsRead sp1 false u).1) :=
  ⟨rfl, rfl, rfl⟩

/-- Platform permission result for notifications. -/
inductive Permission where
  | granted
  | denied
  | defaultPerm
deriving DecidableEq, Repr

/-- Session-scoped fields of the NotificationManager class that the
initialization method reads or writes. A fresh session object starts
with zero attempts. -/
structure ManagerState where
  userId : Option String
  deviceId : Option String
  vapidPublicKey : Option String
  initializationAttempts : Nat
  isInitializing : Bool
  swRegistered : Bool
  socketConnected : Bool
deriving DecidableEq, Repr

/-- The maxInitializationAttempts field, fixed at 3 in the source. -/
def maxInitializationAttempts : Nat := 3

/-- A freshly constructed NotificationManager (the module-level
singleton, re-created only with a fresh session object). -/
def freshManager : ManagerState :=
  { userId := none, deviceId := none, vapidPublicKey := none,
    initializationAttempts := 0, isInitializing := false,
    swRegistered := false, socketConnected := false }

/-- Outcomes of the environment-dependent steps of one initialization
call: service worker support and registration, the VAPID key fetch
(none models the fetch throwing or timing out), the permission prompt,
and the push subscription round trip. -/
structure InitEnv where
  swSupported : Bool
  swRegisterOk : Bool
  vapidKey : Option String
  permission : Permission
  pushOk : Bool
  pushDeviceId : String
deriving DecidableEq, Repr

/-- One call of the initialization method of NotificationManager,
modelled atomically (sequential calls, each awaited to completion, so
the in-progress flag is set on entry and cleared before return in both
the success path and the catch block). The two leading guards
short-circuit when a call is in flight or when the attempt counter has
reached the maximum; otherwise the counter is incremented and the user
id stored. A service worker registration failure throws to the outer
catch, which swallows the error; a VAPID fetch failure is caught by the
inner catch and the call continues; push subscription runs only with
granted permission and an available key; the websocket connection is
then established unconditionally. Returns the post-call state and
whether the call got past the guards. -/
def initManager (uid : String) (env : InitEnv) (s : ManagerState) :
    ManagerState × Bool :=
  if s.isInitializing then (s, false)
  else if maxInitializationAttempts ≤ s.initializationAttempts then (s, false)
  else
    let s1 := { s with initializationAttempts := s.initializationAttempts + 1,
                       userId := some uid }
    if env.swSupported && env.swRegisterOk then
      let s2 := { s1 with swRegistered := true }
      let s3 := match env.vapidKey with
        | some k => { s2 with vapidPublicKey := some k }
        | none => s2
      let s4 :=
        if env.permission == Permission.granted && s3.vapidPublicKey.isSome then
          if env.pushOk then { s3 with deviceId := some env.pushDeviceId }
          else s3
        else s3
      ({ s4 with socketConnected := true, isInitializing := false }, true)
    else
      ({ s1 with isInitializing := false }, true)

/-- Run a sequence of initialization calls, each awaited to completion
before the next starts. -/
def runInitCalls (calls : List (String × InitEnv)) (s : ManagerState) :
    ManagerState :=
  calls.foldl (fun st c => (initManager c.1 c.2 st).1) s

theorem initManager_noop_of_maxed (uid : String) (env : InitEnv)
    (s : ManagerState)
    (h : maxInitializationAttempts ≤ s.initializationAttempts) :
    initManager uid env s = (s, false) := by
  by_cases hi : s.isInitializing <;> simp [initManager, hi, h]

theorem runInitCalls_fixed (calls : List (String × InitEnv))
    (s : ManagerState)
    (h : maxInitializationAttempts ≤ s.initializationAttempts) :
    runInitCalls calls s = s := by
  induction calls with
  | nil => rfl
  | cons c rest ih =>
    have hc : initManager c.1 c.2 s = (s, false) :=
      initManager_noop_of_maxed c.1 c.2 s h
    simp [runInitCalls, List.foldl, hc]
    simpa [runInitCalls] using ih

theorem initManager_progress (uid : String) (env : InitEnv)
    (s : ManagerState) (h1 : s.isInitializing = false)
    (h2 : s.initializationAttempts < maxInitializationAttempts) :
    ((initManager uid env s).1.initializationAttempts =
      s.initializationAttempts + 1) ∧
    ((initManager uid env s).1.isInitializing = false) ∧
    ((initManager uid env s).2 = true) := by
  have h2' : ¬ maxInitializationAttempts ≤ s.initializationAttempts :=
    Nat.not_le.mpr h2
  by_cases hsw : (env.swSupported && env.swRegisterOk) = true
  case neg => simp [initManager, h1, h2', hsw]
  case pos =>
    cases hv : env.vapidKey with
    | none =>
      by_cases hpc :
          (env.permission == Permission.granted && s.vapidPublicKey.isSome) = true
      · by_cases hpo : env.pushOk = true <;>
          simp [initManager, h1, h2', hsw, hv, hpc, hpo]
      · simp [initManager, h1, h2', hsw, hv, hpc]
    | some k =>
      by_cases hpc : (env.permission == Permission.granted) = true
      · by_cases hpo : env.pushOk = true <;>
          simp [initManager, h1, h2', hsw, hv, hpc, hpo]
      · simp [initManager, h1, h2', hsw, hv, hpc]

theorem attempts_after_three (u1 u2 u3 : String) (e1 e2 e3 : InitEnv) :
    ((runInitCalls [(u1, e1), (u2, e2), (u3, e3)]
        freshManager).initializationAttempts = 3) ∧
    ((runInitCalls [(u1, e1), (u2, e2), (u3, e3)]
        freshManager).isInitializing = false) := by
  have p1 := initManager_progress u1 e1 freshManager rfl (by decide)
  have p2 := initManager_progress u2 e2 (initManager u1 e1 freshManager).1
    p1.2.1 (by rw [p1.1]; decide)
  have p3 := initManager_progress u3 e3
    (initManager u2 e2 (initManager u1 e1 freshManager).1).1
    p2.2.1 (by rw [p2.1, p1.1]; decide)
  have ha : (initManager u3 e3
      (initManager u2 e2 (initManager u1 e1 freshManager).1).1).1.initializationAttempts = 3 := by
    rw [p3.1, p2.1, p1.1]
    rfl
  exact ⟨by simpa [runInitCalls, List.foldl] using ha,
    by simpa [runInitCalls, List.foldl] using p3.2.1⟩

/-- Claim C4: after three failing initialization calls (each failing
because the service worker registration step throws) on one fresh
session object, the manager is permanently disabled: every further
sequence of initialization calls leaves the state fixed, and every
single further call returns without getting past the guards. Nothing
but a fresh session object resets the counter, since no operation of
the model decrements it. -/
theorem initManager_disabled_after_three_failures
    (u1 u2 u3 : String) (e1 e2 e3 : InitEnv)
    (hf1 : (e1.swSupported && e1.swRegisterOk) = false)
    (hf2 : (e2.swSupported && e2.swRegisterOk) = false)
    (hf3 : (e3.swSupported && e3.swRegisterOk) = false) :
    (∀ calls : List (String × InitEnv),
      runInitCalls calls
        (runInitCalls [(u1, e1), (u2, e2), (u3, e3)] freshManager) =
      runInitCalls [(u1, e1), (u2, e2), (u3, e3)] freshManager) ∧
    (∀ (u : String) (e : InitEnv),
      initManager u e
        (runInitCalls [(u1, e1), (u2, e2), (u3, e3)] freshManager) =
      (runInitCalls [(u1, e1), (u2, e2), (u3, e3)] freshManager, false)) := by
  have ha := attempts_after_three u1 u2 u3 e1 e2 e3
  have hmax : maxInitializationAttempts ≤
      (runInitCalls [(u1, e1), (u2, e2), (u3, e3)]
        freshManager).initializationAttempts := by
    rw [ha.1]
    decide
  exact ⟨fun calls => runInitCalls_fixed calls _ hmax,
    fun u e => initManager_noop_of_maxed u e _ hmax⟩

/-- A service worker registration environment that throws, used to
witness the attempt cap. -/
def failingEnv : InitEnv :=
  { swSupported := true, swRegisterOk := false, vapidKey := none,
    permission := Permission.defaultPerm, pushOk := false,
    pushDeviceId := ("d1") }

theorem initManager_disabled_after_three_failures_witness :
    initManager ("u4") failingEnv
      (runInitCalls [(("u1"), failingEnv), (("u2"), failingEnv),
        (("u3"), failingEnv)] freshManager) =
    (runInitCalls [(("u1"), failingEnv), (("u2"), failingEnv),
      (("u3"), failingEnv)] freshManager, false) :=
  (initManager_disabled_after_three_failures ("u1") ("u2") ("u3")
    failingEnv failingEnv failingEnv rfl rfl rfl).2 ("u4") failingEnv

/-- Claim C5: the attempt counter is incremented on every call that gets
past the guards, successful ones included: after any three calls on one
fresh session object, the counter is 3, and a fourth call is a no-op
returning the state unchanged without getting past the guards. -/
theorem initManager_fourth_call_noop
    (u1 u2 u3 u4 : String) (e1 e2 e3 e4 : InitEnv) :
    ((runInitCalls [(u1, e1), (u2, e2), (u3, e3)]
        freshManager).initializationAttempts = 3) ∧
    (initManager u4 e4
        (runInitCalls [(u1, e1), (u2, e2), (u3, e3)] freshManager) =
      (runInitCalls [(u1, e1), (u2, e2), (u3, e3)] freshManager, false)) := by
  have ha := attempts_after_three u1 u2 u3 e1 e2 e3
  exact ⟨ha.1, initManager_noop_of_maxed u4 e4 _ (by rw [ha.1]; decide)⟩

/-- Claim C7: a failing VAPID key fetch during initialization disables
only the push subscription: on a session with no cached key the device
registration is untouched, while the call still reaches the step that
connects the realtime channel, for every user id. -/
theorem vapid_failure_still_connects (uid : String) (env : InitEnv)
    (s : ManagerState) (hInit : s.isInitializing = false)
    (hAtt : s.initializationAttempts < maxInitializationAttempts)
    (hsw1 : env.swSupported = true) (hsw2 : env.swRegisterOk = true)
    (hv : env.vapidKey = none) (hsv : s.vapidPublicKey = none) :
    ((initManager uid env s).1.socketConnected = true) ∧
    ((initManager uid env s).1.deviceId = s.deviceId) ∧
    ((initManager uid env s).2 = true) := by
  have h2' : ¬ maxInitializationAttempts ≤ s.initializationAttempts :=
    Nat.not_le.mpr hAtt
  simp [initManager, hInit, h2', hsw1, hsw2, hv, hsv]

theorem vapid_failure_still_connects_witness :
    ((initManager ("u1")
      { swSupported := true, swRegisterOk := true, vapidKey := none,
        permission := Permission.granted, pushOk := true,
        pushDeviceId := ("d1") } freshManager).1.socketConnected = true) ∧
    ((initManager ("u1")
      { swSupported := true, swRegisterOk := true, vapidKey := none,
        permission := Permission.granted, pushOk := true,
        pushDeviceId := ("d1") } freshManager).1.deviceId =
      freshManager.deviceId) ∧
    ((initManager ("u1")
      { swSupported := true, swRegisterOk := true, vapidKey := none,
        permission := Permission.granted, pushOk := true,
        pushDeviceId := ("d1") } freshManager).2 = true) :=
  vapid_failure_still_connects ("u1")
    { swSupported := true, swRegisterOk := true, vapidKey := none,
      permission := Permission.granted, pushOk := true,
      pushDeviceId := ("d1") } freshManager rfl (by decide) rfl rfl rfl rfl

/-- What the fetch listener of the service worker answers a request
with: the live network response, the synthesized offline JSON envelope,
a cache hit, the cached app shell, or nothing (cross-origin requests
are left to the browser). -/
inductive SWResponse where
  | networkResponse
  | offlineEnvelope (success : Bool) (message : String)
  | cachedResponse
  | appShell
  | browserDefault
deriving DecidableEq, Repr

/-- The fetch listener of the service worker. Cross-origin requests are
skipped. Requests whose URL contains the API path are network first,
with a structured offline envelope synthesized when the network fetch
rejects. All other requests are cache first with network fallback, and
fall back to the cached app shell when both miss. The second component
records whether the worker itself issued a network fetch. -/
def handleFetch (sameOrigin apiPath networkOk cacheHit : Bool) :
    SWResponse × Bool :=
  if !sameOrigin then (SWResponse.browserDefault, false)
  else if apiPath then
    if networkOk then (SWResponse.networkResponse, true)
    else (SWResponse.offlineEnvelope false ("Offline"), true)
  else
    if cacheHit then (SWResponse.cachedResponse, false)
    else if networkOk then (SWResponse.networkResponse, true)
    else (SWResponse.appShell, true)

/-- Claim C8: a same-origin API-path request whose network fetch fails
resolves to the structured offline envelope with success false and the
message Offline (never a raw failure), for any cache content; and a
same-origin non-API request with a cache hit is answered from the cache
with no network fetch issued by the worker, whatever the network would
have done. -/
theorem fetch_interception_spec (cacheHit networkOk : Bool) :
    (handleFetch true true false cacheHit =
      (SWResponse.offlineEnvelope false ("Offline"), true)) ∧
    (handleFetch true false networkOk true =
      (SWResponse.cachedResponse, false)) :=
  ⟨rfl, rfl⟩

/-- An open window client as seen from the notification click handler:
whether its URL contains the app origin and whether it exposes focus. -/
structure WindowClient where
  urlIncludesOrigin : Bool
  canFocus : Bool
deriving DecidableEq, Repr

/-- The condition of the loop over the client list in the click
handler. -/
def matchingClient (c : WindowClient) : Bool :=
  c.urlIncludesOrigin && c.canFocus

/-- Index of the first client the loop in the click handler settles on. -/
def findFocusTarget : List WindowClient → Option Nat
  | [] => none
  | c :: cs =>
    if matchingClient c then some 0
    else Option.map (fun i => i + 1) (findFocusTarget cs)

/-- The data field of a displayed notification, as the click handler
reads it. -/
structure NotifData where
  targetUrl : Option String
  notificationId : Option String
deriving DecidableEq, Repr

/-- A notificationclick event: the clicked action, the notification
data, the open window clients, and whether openWindow is available. -/
structure ClickEvent where
  action : String
  data : NotifData
  clientList : List WindowClient
  openWindowSupported : Bool
deriving DecidableEq, Repr

/-- The NOTIFICATION_CLICKED message posted to the focused window. -/
structure ClickMessage where
  url : String
  notificationId : Option String
  action : String
deriving DecidableEq, Repr

/-- Observable outcome of the click handler. -/
structure ClickOutcome where
  notificationClosed : Bool
  focusedClient : Option Nat
  postedMessages : List ClickMessage
  openedWindowUrl : Option String
deriving DecidableEq, Repr

/-- The notificationclick listener: the notification is closed first in
every path; a dismiss action returns with no further effect; otherwise
the target URL is resolved from the notification data with fallback to
the root path, the first matching open window is focused and receives
exactly one structured message, and with no matching window a new
window is opened at the target URL when openWindow is available. -/
def handleNotificationClick (e : ClickEvent) : ClickOutcome :=
  if e.action = ("dismiss") then
    { notificationClosed := true, focusedClient := none,
      postedMessages := [], openedWindowUrl := none }
  else
    let targetUrl := jsOrStr e.data.targetUrl ("/")
    match findFocusTarget e.clientList with
    | some i =>
      { notificationClosed := true, focusedClient := some i,
        postedMessages :=
          [{ url := targetUrl, notificationId := e.data.notificationId,
             action := e.action }],
        openedWindowUrl := none }
    | none =>
      if e.openWindowSupported then
        { notificationClosed := true, focusedClient := none,
          postedMessages := [], openedWindowUrl := some targetUrl }
      else
        { notificationClosed := true, focusedClient := none,
          postedMessages := [], openedWindowUrl := none }

theorem findFocusTarget_isSome (l : List WindowClient)
    (h : ∃ c ∈ l, matchingClient c = true) :
    (findFocusTarget l).isSome = true := by
  induction l with
  | nil =>
    rcases h with ⟨c, hc, _⟩
    cases hc
  | cons a tl ih =>
    by_cases ha : matchingClient a = true
    · simp [findFocusTarget, ha]
    · rcases h with ⟨c, hc, hm⟩
      have hctl : c ∈ tl := by
        rcases List.mem_cons.mp hc with hca | hctl
        · exact absurd (hca ▸ hm) ha
        · exact hctl
      have := ih ⟨c, hctl, hm⟩
      cases hft : findFocusTarget tl with
      | none => rw [hft] at this; cases this
      | some i => simp [findFocusTarget, ha, hft]

theorem findFocusTarget_none (l : List WindowClient)
    (h : ∀ c ∈ l, matchingClient c = false) :
    findFocusTarget l = none := by
  induction l with
  | nil => rfl
  | cons a tl ih =>
    have ha := h a (List.mem_cons_self a tl)
    have htl := ih (fun c hc => h c (List.mem_cons_of_mem a hc))
    simp [findFocusTarget, ha, htl]

/-- Claim C9: the click handler closes the notification in every case;
a dismiss action issues no focus, no message and no open call; any
other action focuses a window and posts exactly one structured message
when a matching origin window exists, and opens a new window at the
resolved target URL when none exists and openWindow is available. -/
theorem notificationclick_spec (e : ClickEvent) :
    ((handleNotificationClick e).notificationClosed = true) ∧
    (e.action = ("dismiss") →
      (handleNotificationClick e).focusedClient = none ∧
      (handleNotificationClick e).postedMessages = [] ∧
      (handleNotificationClick e).openedWindowUrl = none) ∧
    (e.action ≠ ("dismiss") →
      ((∃ c ∈ e.clientList, matchingClient c = true) →
        ((handleNotificationClick e).focusedClient.isSome = true ∧
         (handleNotificationClick e).postedMessages =
           [{ url := jsOrStr e.data.targetUrl ("/"),
              notificationId := e.data.notificationId,
              action := e.action }] ∧
         (handleNotificationClick e).openedWindowUrl = none)) ∧
      ((∀ c ∈ e.clientList, matchingClient c = false) →
        e.openWindowSupported = true →
        ((handleNotificationClick e).openedWindowUrl =
           some (jsOrStr e.data.targetUrl ("/")) ∧
         (handleNotificationClick e).postedMessages = [] ∧
         (handleNotificationClick e).focusedClient = none))) := by
  refine ⟨?_, ?_, ?_⟩
  · by_cases hd : e.action = ("dismiss")
    · simp [handleNotificationClick, hd]
    · cases hft : findFocusTarget e.clientList <;>
        by_cases ho : e.openWindowSupported = true <;>
        simp [handleNotificationClick, hd, hft, ho]
  · intro hd
    simp [handleNotificationClick, hd]
  · intro hd
    constructor
    · intro hex
      have hsome := findFocusTarget_isSome e.clientList hex
      cases hft : findFocusTarget e.clientList with
      | none => rw [hft] at hsome; cases hsome
      | some i => simp [handleNotificationClick, hd, hft]
    · intro hall ho
      have hnone := findFocusTarget_none e.clientList hall
      simp [handleNotificationClick, hd, hnone, ho]

/-- A click on the view action of a notification with a deep link and
one matching open window. -/
def sampleClickEvent : ClickEvent :=
  { action := ("view"),
    data := { targetUrl := some ("/orders"), notificationId := some ("n1") },
    clientList := [{ urlIncludesOrigin := true, canFocus := true }],
    openWindowSupported := true }

theorem notificationclick_spec_witness :
    ((handleNotificationClick sampleClickEvent).focusedClient.isSome = true) ∧
    ((handleNotificationClick sampleClickEvent).postedMessages =
      [{ url := jsOrStr sampleClickEvent.data.targetUrl ("/"),
         notificationId := sampleClickEvent.data.notificationId,
         action := sampleClickEvent.action }]) := by
  have h := ((notificationclick_spec sampleClickEvent).2.2 (by decide)).1
    ⟨{ urlIncludesOrigin := true, canFocus := true }, by simp [sampleClickEvent], rfl⟩
  exact ⟨h.1, h.2.1⟩

/-- An action button carried by a push payload. -/
structure PushAction where
  action : String
  title : String
  icon : String
deriving DecidableEq, Repr

/-- The fields a JSON push payload may carry; every field is optional,
matching an arbitrary JSON object. Opaque JSON objects are modelled as
association lists. -/
structure RawPayload where
  title : Option String
  body : Option String
  icon : Option String
  badge : Option String
  tag : Option String
  requireInteraction : Option Bool
  vibrate : Option (List Nat)
  data : Option (List (String × String))
  actions : Option (List PushAction)
  badgeCount : Option Int
deriving DecidableEq, Repr

/-- What arrives with a push event: no data at all, data whose JSON
parse succeeds, or data whose JSON parse throws so only the raw text is
available. -/
inductive PushEventData where
  | absent
  | parses (p : RawPayload)
  | textOnly (s : String)
deriving DecidableEq, Repr

/-- The literal the push listener initializes notificationData with
before looking at the event data: title, body, icon, badge and an empty
data object; every other field is undefined. -/
def defaultNotificationData : RawPayload :=
  { title := some ("New Notification"),
    body := some ("You have a new notification"),
    icon := some ("/icon-192x192.png"),
    badge := some ("/badge-72x72.png"),
    tag := none, requireInteraction := none, vibrate := none,
    data := some [], actions := none, badgeCount := none }

/-- The notificationData value after the parse step of the push
listener: kept at the defaults when the event has no data, replaced
wholesale by the parsed object when the JSON parse succeeds, and kept
at the defaults with the body overwritten by the raw text when the
parse throws. -/
def parseEventData : PushEventData → RawPayload
  | PushEventData.absent => defaultNotificationData
  | PushEventData.parses p => p
  | PushEventData.textOnly s => { defaultNotificationData with body := some s }

/-- The options object handed to showNotification. The body field keeps
its possibly-undefined value, as in the source. -/
structure NotificationOptions where
  body : Option String
  icon : String
  badge : String
  tag : String
  requireInteraction : Bool
  vibrate : List Nat
  data : List (String × String)
  actions : List PushAction
  silent : Bool
deriving DecidableEq, Repr

/-- The fallback action buttons of the push listener. -/
def defaultActions : List PushAction :=
  [{ action := ("view"), title := ("View"), icon := ("/icon-view.png") },
   { action := ("dismiss"), title := ("Dismiss"), icon := ("/icon-dismiss.png") }]

/-- The options literal of the push listener: each field is the
notificationData field with its inline JavaScript fallback, except the
body, which is copied with no fallback. -/
def buildOptions (nd : RawPayload) : NotificationOptions :=
  { body := nd.body,
    icon := jsOrStr nd.icon ("/icon-192x192.png"),
    badge := jsOrStr nd.badge ("/badge-72x72.png"),
    tag := jsOrStr nd.tag ("default"),
    requireInteraction := nd.requireInteraction.getD false,
    vibrate := nd.vibrate.getD [200, 100, 200],
    data := nd.data.getD [],
    actions := nd.actions.getD defaultActions,
    silent := false }

/-- The display options the push listener derives from the event data. -/
def handlePushOptions (d : PushEventData) : NotificationOptions :=
  buildOptions (parseEventData d)

/-- A push payload that is valid JSON but carries none of the optional
fields. -/
def emptyPushPayload : RawPayload :=
  { title := none, body := none, icon := none, badge := none, tag := none,
    requireInteraction := none, vibrate := none, data := none,
    actions := none, badgeCount := none }

/-- Counterexample to claim C10 as stated: when the payload parses as
JSON but carries no body field, the displayed body is undefined, not
the documented default; the default body survives only when the event
carries no data at all. -/
theorem push_body_default_missing_cex :
    ((handlePushOptions (PushEventData.parses emptyPushPayload)).body = none) ∧
    ((handlePushOptions (PushEventData.parses emptyPushPayload)).body ≠
      some ("You have a new notification")) ∧
    ((handlePushOptions PushEventData.absent).body =
      some ("You have a new notification")) := by
  refine ⟨rfl, ?_, rfl⟩
  intro h
  cases h

/-- Claim C10 as amended: for every successfully parsed payload, the
documented defaults are applied to icon, badge icon, tag, interaction
flag, vibration pattern, data payload and action buttons whenever the
field is absent, while the body is copied with no default; when the
JSON parse fails the body falls back to the raw text of the push
message. -/
theorem push_defaults_spec (p : RawPayload) (s : String) :
    ((p.icon = none →
      (handlePushOptions (PushEventData.parses p)).icon = ("/icon-192x192.png"))) ∧
    ((p.badge = none →
      (handlePushOptions (PushEventData.parses p)).badge = ("/badge-72x72.png"))) ∧
    ((p.tag = none →
      (handlePushOptions (PushEventData.parses p)).tag = ("default"))) ∧
    ((p.requireInteraction = none →
      (handlePushOptions (PushEventData.parses p)).requireInteraction = false)) ∧
    ((p.vibrate = none →
      (handlePushOptions (PushEventData.parses p)).vibrate = [200, 100, 200])) ∧
    ((p.data = none →
      (handlePushOptions (PushEventData.parses p)).data = [])) ∧
    ((p.actions = none →
      (handlePushOptions (PushEventData.parses p)).actions = defaultActions)) ∧
    ((handlePushOptions (PushEventData.parses p)).body = p.body) ∧
    ((handlePushOptions (PushEventData.textOnly s)).body = some s) := by
  refine ⟨?_, ?_, ?_, ?_, ?_, ?_, ?_, rfl, rfl⟩ <;>
    intro h <;> simp [handlePushOptions, buildOptions, parseEventData, jsOrStr, h]

theorem push_defaults_spec_witness :
    ((handlePushOptions (PushEventData.parses emptyPushPayload)).icon =
      ("/icon-192x192.png")) ∧
    ((handlePushOptions (PushEventData.parses emptyPushPayload)).actions =
      defaultActions) ∧
    ((handlePushOptions (PushEventData.textOnly ("hello"))).body =
      some ("hello")) :=
  ⟨(push_defaults_spec emptyPushPayload ("hello")).1 rfl,
   (push_defaults_spec emptyPushPayload ("hello")).2.2.2.2.2.2.1 rfl,
   (push_defaults_spec emptyPushPayload ("hello")).2.2.2.2.2.2.2.2⟩

end NotificationClient
